/-
Verification of the dataset pipeline in `folklore/data/datasets.py`
(repository hackalog/data_folklore).

The development shallowly embeds the two classes of that module:

* `RawDataset` — a declarative description of a raw dataset (name, working
  directory, file list, transform reference) together with the mutable
  pipeline flags `fetched_`, `fetched_files_`, `unpacked_`, `unpack_path_`
  and the operations `fetch`, `unpack`, `process`, `to_dict`, `to_hash`,
  `from_dict`.
* `Dataset` — the processed artifact (data payload, target payload,
  metadata mapping) with `get_data_hashes`, `dump` and `load`.

Python values flowing through dictionaries are modelled by the inductive
type `PyVal`; Python dictionaries (which preserve insertion order) are
modelled by the association-list type `PyDict`, and Python lists by
`PyList`.  External collaborators (the file fetcher `fetch_file`, the
archive unpacker `unpack`, the filesystem reads used by
`default_metadata`, and the invocation of the transform callable) are
modelled as an oracle record `Env`; the cache directory on disk is
modelled as the finite store `FS` holding one metadata record and one
full record per file-base name.
-/

import Mathlib

namespace Folklore

/-! ## Python value model -/

mutual

/-- A Python value as it appears in the dictionaries handled by
`datasets.py`: strings, integers, booleans, `None`, lists and dicts. -/
inductive PyVal where
  | str : String → PyVal
  | int : Int → PyVal
  | bool : Bool → PyVal
  | pynone : PyVal
  | list : PyList → PyVal
  | dict : PyDict → PyVal
deriving DecidableEq, Repr

/-- A Python list of `PyVal`s. -/
inductive PyList where
  | nil : PyList
  | cons : PyVal → PyList → PyList
deriving DecidableEq, Repr

/-- A Python dict mapping strings to `PyVal`s, in insertion order. -/
inductive PyDict where
  | dnil : PyDict
  | dcons : String → PyVal → PyDict → PyDict
deriving DecidableEq, Repr
end

/-- Embed a Lean list of values as a `PyList`. -/
def PyList.ofList : List PyVal → PyList
  | [] => PyList.nil
  | v :: rest => PyList.cons v (PyList.ofList rest)

/-- Lookup `d[k]` returning `none` when the key is absent
(first occurrence wins, matching unique-key Python dicts). -/
def PyDict.get : PyDict → String → Option PyVal
  | .dnil, _ => Option.none
  | .dcons k v rest, key => if k = key then some v else rest.get key

/-- Python `d.get(k, default)`. -/
def PyDict.getD (d : PyDict) (key : String) (dflt : PyVal) : PyVal :=
  (d.get key).getD dflt

/-- Assignment `d[k] = v`: replace the value at an existing key in place, else append
at the end — Python dict assignment semantics. -/
def PyDict.set : PyDict → String → PyVal → PyDict
  | .dnil, key, val => .dcons key val .dnil
  | .dcons k v rest, key, val =>
    if k = key then .dcons k val rest else .dcons k v (rest.set key val)

/-- Python `d.pop(k, None)`: remove the key (no-op when absent). -/
def PyDict.pop : PyDict → String → PyDict
  | .dnil, _ => .dnil
  | .dcons k v rest, key =>
    if k = key then rest.pop key else .dcons k v (rest.pop key)

/-- Merge `{**a, **b}`: start from `a` and assign every entry of `b` in order. -/
def PyDict.merge : PyDict → PyDict → PyDict
  | a, .dnil => a
  | a, .dcons k v rest => (a.set k v).merge rest

/-- Membership `k in d`. -/
def PyDict.hasKey : PyDict → String → Bool
  | .dnil, _ => false
  | .dcons k _ rest, key => k == key || rest.hasKey key

/-- The keys of the dict are pairwise distinct (true of every dict a
Python program can build). -/
def PyDict.nodupKeys : PyDict → Bool
  | .dnil => true
  | .dcons k _ rest => !rest.hasKey k && rest.nodupKeys

/-- Subset test `a.items() <= b.items()`: every key/value pair of `a` occurs in `b`. -/
def PyDict.itemsSubset : PyDict → PyDict → Bool
  | .dnil, _ => true
  | .dcons k v rest, big => (big.get k == some v) && rest.itemsSubset big

/-- Python truthiness of a value (`if value:`). -/
def pyTruthy : PyVal → Bool
  | .str s => !(s == "")
  | .int n => !(n == 0)
  | .bool b => b
  | .pynone => false
  | .list .nil => false
  | .list _ => true
  | .dict .dnil => false
  | .dict _ => true

/-- Dict lookup on a value expected to be a dict (`item.get(k)` where
`item` is an entry of `file_list`). -/
def itemGet : PyVal → String → Option PyVal
  | .dict d, k => d.get k
  | _, _ => Option.none

/-- Python `item.get(k, default)` on a file-list entry. -/
def itemGetD (item : PyVal) (k : String) (dflt : PyVal) : PyVal :=
  (itemGet item k).getD dflt

/-- Assignment `item[k] = v` on a file-list entry (identity on non-dicts, which the
source would have rejected earlier when splatting `**item`). -/
def itemSet : PyVal → String → PyVal → PyVal
  | .dict d, k, v => .dict (d.set k v)
  | other, _, _ => other

/-! ## External collaborators modelled as constants and oracles -/

/-- Modelled from the spec: the configured directory for raw files
(`folklore.paths.raw_data_path`), an external configuration value.  Only
its identity matters to the embedded code, never its contents. -/
def raw_data_path : String := "./data/raw"

/-- Modelled from the spec: the configured interim-data directory
(`folklore.paths.interim_data_path`). -/
def interim_data_path : String := "./data/interim"

/-- Modelled from the spec: `joblib.hash(value, hash_name=...)`, the
external hashing collaborator.  The spec's contract treats the digest as
collision-free on the canonical mappings that arise ("no collisions under
the default algorithm"), so the digest is modelled as an injective
function of the algorithm name and the hashed value. -/
def joblib_hash (hash_name : String) (v : PyVal) : PyVal :=
  .dict (.dcons "hash_name" (.str hash_name) (.dcons "digest" v .dnil))

/-- Modelled from the spec: the serializable reference to a transform
callable with pre-bound positional and keyword arguments
(`functools.partial` handled by `folklore.data.utils`, a repository file
not present under `src/`): a stable function identifier (module and
function name) plus the bound arguments. -/
structure TransformRef where
  module : String
  func : String
  args : PyList
  kwargs : PyDict
deriving DecidableEq, Repr

/-- Modelled from the spec: `serialize_partial` from
`folklore.data.utils` (not present under `src/`).  Emits the
`load_function_{module|name|args|kwargs}` keys named by the
`RawDataset.from_dict` docstring. -/
def serialize_transform (t : TransformRef) : PyDict :=
  .dcons "load_function_module" (.str t.module)
    (.dcons "load_function_name" (.str t.func)
      (.dcons "load_function_args" (.list t.args)
        (.dcons "load_function_kwargs" (.dict t.kwargs) .dnil)))

/-- Modelled from the spec: `deserialize_partial` from
`folklore.data.utils` (not present under `src/`): reads the
`load_function_*` keys back into a callable reference; the spec requires
serialize/deserialize to round-trip. -/
def deserialize_transform (obj : PyDict) : TransformRef :=
  { module := match obj.get "load_function_module" with
      | some (.str s) => s
      | _ => ""
    func := match obj.get "load_function_name" with
      | some (.str s) => s
      | _ => ""
    args := match obj.get "load_function_args" with
      | some (.list l) => l
      | _ => PyList.nil
    kwargs := match obj.get "load_function_kwargs" with
      | some (.dict m) => m
      | _ => PyDict.dnil }

/-- Modelled from the spec: the default transform
`folklore.data.utils.process_dataset_default`, referenced by name. -/
def process_dataset_default : TransformRef :=
  ⟨"folklore.data.utils", "process_dataset_default", PyList.nil, PyDict.dnil⟩

/-! ## RawDataset -/

/-- The `RawDataset.__init__` state: the declarative fields plus the
sklearn-style pipeline-progress attributes. -/
structure RawDataset where
  name : String
  file_list : PyList
  load_function : TransformRef
  dataset_dir : String
  fetched_ : Bool
  fetched_files_ : List String
  unpacked_ : Bool
  unpack_path_ : Option String
deriving DecidableEq, Repr

/-- Constructor `RawDataset.__init__`: optional arguments default to the empty file
list, the default transform and the configured raw-data directory; the
progress flags start false/empty. -/
def RawDataset.init (name : String) (load_function : Option TransformRef)
    (dataset_dir : Option String) (file_list : Option PyList) : RawDataset :=
  { name := name
    file_list := file_list.getD PyList.nil
    load_function := load_function.getD process_dataset_default
    dataset_dir := dataset_dir.getD raw_data_path
    fetched_ := false
    fetched_files_ := []
    unpacked_ := false
    unpack_path_ := Option.none }

/-- Method `RawDataset.to_dict`: the serializable dictionary
`{'url_list': file_list, **serialized_transform, 'name': name,
'dataset_dir': str(dataset_dir)}`, built with Python dict-literal
semantics. -/
def RawDataset.to_dict (d : RawDataset) : PyDict :=
  ((((PyDict.dnil.set "url_list" (.list d.file_list)).merge
      (serialize_transform d.load_function)).set "name"
        (.str d.name)).set "dataset_dir" (.str d.dataset_dir))

/-- Method `RawDataset.to_hash`: merge the extra key/value pairs over
`to_dict()`, drop the ignored keys (default `['dataset_dir']`), and hash
the result. -/
def RawDataset.to_hash (d : RawDataset) (ignore : Option (List String))
    (hash_type : String) (kwargs : PyDict) : PyVal :=
  let ig := ignore.getD ["dataset_dir"]
  joblib_hash hash_type (.dict (ig.foldl PyDict.pop (d.to_dict.merge kwargs)))

/-- Classmethod `RawDataset.from_dict`: rebuild a `RawDataset` from its serialized
dictionary (`KeyError` when `name` is absent; the model additionally
restricts `name` to a string, as every serialized record has). -/
def RawDataset.from_dict (obj : PyDict) : Except String RawDataset :=
  let file_list := match obj.get "url_list" with
    | some (.list l) => l
    | _ => PyList.nil
  let load_function := deserialize_transform obj
  match obj.get "name" with
  | some (.str nm) =>
    let dataset_dir := match obj.get "dataset_dir" with
      | some (.str s) => some s
      | _ => Option.none
    .ok (RawDataset.init nm (some load_function) dataset_dir (some file_list))
  | some _ => .error "TypeError: name must be a string"
  | Option.none => .error "KeyError: name"

/-! ## Oracles for external effects -/

/-- The record a transform invocation returns (`dset_opts`), splatted
into the `Dataset` constructor: the usual constructor fields. -/
structure TransformOut where
  dataset_name : Option PyVal
  data : PyVal
  target : PyVal
  metadata : Option PyDict
deriving DecidableEq, Repr

/-- The external collaborators of `datasets.py`, modelled as pure
oracles: `fetch_file` (returns status, local path or error, verified
hash), the archive `unpack` step (which fails loudly), the text reads and
filename derivation used by `default_metadata`, the docstring text used
when `use_docstring` is requested, and the invocation of the transform
callable. -/
structure Env where
  fetch_file : PyVal → Bool × String × String
  unpack_file : String → String → Except String Unit
  read_text : String → String
  get_dataset_filename : PyVal → String
  docstring_descr : TransformRef → String
  run_transform : TransformRef → PyDict → TransformOut

/-! ## fetch -/

/-- Everything the `for`/`else` loop of `RawDataset.fetch` produces: the
(possibly hash-updated) file list, the accumulated local files, whether
the loop ran to completion without `break`, and the items actually handed
to `fetch_file`, in order. -/
structure FetchOut where
  file_list : PyList
  fetched_files : List String
  completed : Bool
  attempted : List PyVal

/-- The body of `RawDataset.fetch`'s loop: on success record the verified
hash into the item and collect the result path; on failure of an item
with a truthy `url`, break; on failure of a purely local item, continue. -/
def fetchLoop (env : Env) : PyList → FetchOut
  | .nil => ⟨.nil, [], true, []⟩
  | .cons item rest =>
    let r := env.fetch_file item
    if r.1 then
      let out := fetchLoop env rest
      ⟨.cons (itemSet item "hash_value" (.str r.2.2)) out.file_list,
       r.2.1 :: out.fetched_files, out.completed, item :: out.attempted⟩
    else
      if pyTruthy (itemGetD item "url" (.bool false)) then
        ⟨.cons item rest, [], false, [item]⟩
      else
        let out := fetchLoop env rest
        ⟨.cons item out.file_list, out.fetched_files, out.completed,
         item :: out.attempted⟩

/-- Method `RawDataset.fetch`: skip (returning `None`) when already fetched and
not forced; otherwise reset the fetched state and run the loop, setting
`fetched_` true exactly when the loop completed without `break`, and
return the flag.  (`fetch_path` is computed but never used by the
source's loop, so it is omitted.) -/
def RawDataset.fetch (env : Env) (d : RawDataset) (force : Bool) :
    RawDataset × Option Bool :=
  if d.fetched_ && !force then (d, Option.none)
  else
    let out := fetchLoop env d.file_list
    let d2 := { d with file_list := out.file_list,
                       fetched_files_ := out.fetched_files,
                       fetched_ := out.completed }
    (d2, some d2.fetched_)

/-! ## unpack -/

/-- The destination directory of `RawDataset.unpack`: the explicit
argument, defaulting to `interim_data_path / name`. -/
def unpackDest (d : RawDataset) (unpack_path : Option String) : String :=
  match unpack_path with
  | some p => p
  | Option.none => interim_data_path ++ "/" ++ d.name

/-- Unpack every fetched file into the destination; the collaborator
fails loudly and the failure propagates. -/
def unpackAll (env : Env) (dst : String) : List String → Except String Unit
  | [] => .ok ()
  | f :: rest =>
    match env.unpack_file f dst with
    | .error e => .error e
    | .ok _ => unpackAll env dst rest

/-- Method `RawDataset.unpack`: implicitly fetch first when not fetched (the
fetch result is not checked); skip when already unpacked and not forced;
otherwise unpack every fetched file, then set `unpacked_` and record the
destination.  Returns `unpack_path_`. -/
def RawDataset.unpack (env : Env) (d0 : RawDataset) (unpack_path : Option String)
    (force : Bool) : Except String (RawDataset × Option String) :=
  let d := if !d0.fetched_ then (RawDataset.fetch env d0 false).1 else d0
  if d.unpacked_ && !force then .ok (d, d.unpack_path_)
  else
    let dst := unpackDest d unpack_path
    match unpackAll env dst d.fetched_files_ with
    | .error e => .error e
    | .ok _ => .ok ({ d with unpacked_ := true, unpack_path_ := some dst }, some dst)

/-! ## Dataset -/

/-- The `Dataset` Bunch: data payload, target payload (`PyVal.pynone`
when absent) and the metadata mapping. -/
structure Dataset where
  data : PyVal
  target : PyVal
  metadata : PyDict
deriving DecidableEq, Repr

/-- Property `Dataset.name`: `metadata['dataset_name']`. -/
def Dataset.name (ds : Dataset) : PyVal :=
  (ds.metadata.get "dataset_name").getD PyVal.pynone

/-- Method `Dataset.get_data_hashes` with the default exclude list
`['metadata']`: the hash algorithm plus one content hash per payload
field. -/
def Dataset.get_data_hashes (ds : Dataset) (hash_type : String) : PyDict :=
  .dcons "hash_type" (.str hash_type)
    (.dcons "data_hash" (joblib_hash hash_type ds.data)
      (.dcons "target_hash" (joblib_hash hash_type ds.target) .dnil))

/-- Constructor `Dataset.__init__`: resolve the required dataset name (explicit
argument, else a non-`None` `metadata['dataset_name']`, else raise),
store it into the metadata, and, when `update_hashes` is set, merge the
freshly computed content hashes into the metadata. -/
def Dataset.create (dataset_name : Option PyVal) (data target : PyVal)
    (metadata : Option PyDict) (update_hashes : Bool) : Except String Dataset :=
  let md0 := metadata.getD PyDict.dnil
  let dn : Option PyVal := match dataset_name with
    | some v => some v
    | Option.none =>
      match md0.get "dataset_name" with
      | some v => if v = PyVal.pynone then Option.none else some v
      | Option.none => Option.none
  match dn with
  | Option.none => .error "dataset_name is required"
  | some v =>
    let md := md0.set "dataset_name" v
    let ds : Dataset := ⟨data, target, md⟩
    if update_hashes then
      .ok { ds with metadata := md.merge (ds.get_data_hashes "sha1") }
    else .ok ds

/-! ## The cache directory -/

/-- The artifact directory: for each file-base name at most one
`<base>.metadata` record and one `<base>.dataset` record. -/
structure FS where
  metas : List (PyVal × PyDict)
  datasets : List (PyVal × Dataset)
deriving DecidableEq, Repr

/-- The empty artifact directory. -/
def FS.empty : FS := ⟨[], []⟩

/-- Look up an association-list entry by file-base name. -/
def alistGet {α : Type} : List (PyVal × α) → PyVal → Option α
  | [], _ => Option.none
  | p :: rest, k => if p.1 = k then some p.2 else alistGet rest k

/-- Overwrite an association-list entry, appending when absent. -/
def alistSet {α : Type} : List (PyVal × α) → PyVal → α → List (PyVal × α)
  | [], k, v => [(k, v)]
  | p :: rest, k, v =>
    if p.1 = k then (k, v) :: rest else p :: alistSet rest k v

/-- Read the `<base>.metadata` record. -/
def fsGetMeta (fs : FS) (k : PyVal) : Option PyDict :=
  alistGet fs.metas k

/-- Read the `<base>.dataset` record. -/
def fsGetDataset (fs : FS) (k : PyVal) : Option Dataset :=
  alistGet fs.datasets k

/-- Write the `<base>.metadata` record. -/
def fsSetMeta (fs : FS) (k : PyVal) (v : PyDict) : FS :=
  { fs with metas := alistSet fs.metas k v }

/-- Write the `<base>.dataset` record. -/
def fsSetDataset (fs : FS) (k : PyVal) (v : Dataset) : FS :=
  { fs with datasets := alistSet fs.datasets k v }

/-- Classmethod `Dataset.load`: read the metadata-only record or the full record;
a missing file is a `FileNotFoundError`. -/
def Dataset.load (file_base : PyVal) (fs : FS) (metadata_only : Bool) :
    Except String (PyDict ⊕ Dataset) :=
  if metadata_only then
    match fsGetMeta fs file_base with
    | some m => .ok (Sum.inl m)
    | Option.none => .error "FileNotFoundError"
  else
    match fsGetDataset fs file_base with
    | some ds => .ok (Sum.inr ds)
    | Option.none => .error "FileNotFoundError"

/-- The conflict message when the new metadata is a subset of the cached
metadata. -/
def msg_exists : String :=
  "Dataset with matching metadata exists already. Use force=True to overwrite, or change one of dataset.metadata or file_base"

/-- The conflict message when the cached metadata differs. -/
def msg_changed : String :=
  "Metadata file exists but metadata has changed. Use force=True to overwrite, or change file_base"

/-- Method `Dataset.dump`: bind the local `metadata` variable (before the hash
refresh, exactly as the source does), refresh the content hashes into
`self.metadata`, fail on an existing metadata record unless forced
(distinguishing subset from changed metadata), else write the
metadata-only record (the local, pre-refresh binding) and the full
record. -/
def Dataset.dump (ds : Dataset) (file_base : Option PyVal) (fs : FS)
    (hash_type : String) (force : Bool) (dump_metadata : Bool) :
    Except String (Dataset × FS) :=
  let fb := file_base.getD ds.name
  let metadata := ds.metadata
  let data_hashes := ds.get_data_hashes hash_type
  let ds2 : Dataset := { ds with metadata := ds.metadata.merge data_hashes }
  match fsGetMeta fs fb, force with
  | some cached, false =>
    if metadata.itemsSubset cached then .error msg_exists
    else .error msg_changed
  | _, _ =>
    let fs1 := if dump_metadata then fsSetMeta fs fb metadata else fs
    .ok (ds2, fsSetDataset fs1 fb ds2)

/-! ## default_metadata and process -/

/-- The loop of `RawDataset.default_metadata`: file-list entries whose
`name` is `DESCR` or `LICENSE` contribute the text of the corresponding
raw file as `descr` / `license` metadata. -/
def defaultMetaLoop (env : Env) : PyList → PyDict → PyDict
  | .nil, md => md
  | .cons item rest, md =>
    let md2 := match itemGet item "name" with
      | some (.str "DESCR") =>
        md.set "descr" (.str (env.read_text (env.get_dataset_filename item)))
      | some (.str "LICENSE") =>
        md.set "license" (.str (env.read_text (env.get_dataset_filename item)))
      | _ => md
    defaultMetaLoop env rest md2

/-- Method `RawDataset.default_metadata`: role-tagged text files, optionally a
`descr` synthesized from the transform's docstring, and the dataset
name. -/
def RawDataset.default_metadata (env : Env) (d : RawDataset)
    (use_docstring : Bool) : PyDict :=
  let md := defaultMetaLoop env d.file_list PyDict.dnil
  let md := if use_docstring then
      md.set "descr" (.str (env.docstring_descr d.load_function))
    else md
  md.set "dataset_name" (.str d.name)

/-- The result of `RawDataset.process`: either the `Dataset` or, when
`return_X_y` is requested, just its data and target payloads. -/
inductive ProcOut where
  | ds : Dataset → ProcOut
  | xy : PyVal → PyVal → ProcOut
deriving DecidableEq, Repr

/-- Method `RawDataset.process`: implicitly unpack when needed, compute the
fingerprint over the dataset identity and the extra arguments, probe the
cache unless forced, and on a miss build the merged metadata, invoke the
transform, wrap the result into a `Dataset` and dump it under the
fingerprint key.  The final component counts how many times the transform
was invoked. -/
def RawDataset.process (env : Env) (d0 : RawDataset) (fs : FS)
    (force return_X_y use_docstring : Bool) (kwargs : PyDict) :
    Except String (RawDataset × ProcOut × FS × Nat) :=
  match (if d0.unpacked_ then Except.ok d0
         else match RawDataset.unpack env d0 Option.none false with
           | .ok r => Except.ok r.1
           | .error e => Except.error e) with
  | .error e => .error e
  | .ok d =>
    let meta_hash := d.to_hash Option.none "sha1" kwargs
    let cached : Option Dataset :=
      if force then Option.none
      else match Dataset.load meta_hash fs false with
        | .ok (Sum.inr ds) => some ds
        | _ => Option.none
    match cached with
    | some dset =>
      .ok (d, if return_X_y then ProcOut.xy dset.data dset.target
              else ProcOut.ds dset, fs, 0)
    | Option.none =>
      let metadata := RawDataset.default_metadata env d use_docstring
      match (match kwargs.get "metadata" with
             | Option.none => Except.ok PyDict.dnil
             | some (.dict m) => Except.ok m
             | some _ => Except.error "TypeError: metadata must be a mapping") with
      | .error e => .error e
      | .ok supplied =>
        let kwargs2 := (kwargs.pop "metadata").set "metadata"
          (.dict (metadata.merge supplied))
        let tout := env.run_transform d.load_function kwargs2
        match Dataset.create tout.dataset_name tout.data tout.target
            tout.metadata true with
        | .error e => .error e
        | .ok dset =>
          match Dataset.dump dset (some meta_hash) fs "sha1" true true with
          | .error e => .error e
          | .ok r =>
            .ok (d, if return_X_y then ProcOut.xy r.1.data r.1.target
                    else ProcOut.ds r.1, r.2, 1)

/-! ## Concrete instances and derived definitions -/

/-- The keys `to_dict` populates; extra transform arguments under these
names shadow or are shadowed by the serialized definition. -/
def reserved_keys : List String :=
  ["url_list", "load_function_module", "load_function_name",
   "load_function_args", "load_function_kwargs", "name", "dataset_dir"]

/-- The canonical mapping `to_hash` hashes (default `ignore`):
`{**to_dict, **kwargs}` with `dataset_dir` removed. -/
def fingerprintDict (d : RawDataset) (kw : PyDict) : PyDict :=
  (d.to_dict.merge kw).pop "dataset_dir"

/-- A remote-origin failure: `fetch_file` reported failure for an item
whose `url` entry is truthy. -/
def remoteFailure (env : Env) (item : PyVal) : Bool :=
  !(env.fetch_file item).1 && pyTruthy (itemGetD item "url" (.bool false))

/-- A concrete oracle environment: every `fetch_file` call fails, every
unpack succeeds, the transform returns a fixed record. -/
def wEnv : Env :=
  { fetch_file := fun _ => (false, "error", "")
    unpack_file := fun _ _ => Except.ok ()
    read_text := fun _ => ""
    get_dataset_filename := fun _ => ""
    docstring_descr := fun _ => ""
    run_transform := fun _ _ => ⟨some (.str "out"), .int 1, .pynone, Option.none⟩ }

/-- A purely local file-list entry (no `url` key). -/
def wLocalItem : PyVal := .dict (.dcons "file_name" (.str "local.csv") .dnil)

/-- A remote file-list entry (truthy `url`). -/
def wUrlItem : PyVal := .dict (.dcons "url" (.str "http://example.com/x") .dnil)

/-- A raw dataset holding one local and then one remote entry, nothing
fetched yet. -/
def w5raw : RawDataset :=
  { name := "w5", file_list := PyList.ofList [wLocalItem, wUrlItem, wLocalItem],
    load_function := process_dataset_default, dataset_dir := "./d",
    fetched_ := false, fetched_files_ := [], unpacked_ := false,
    unpack_path_ := Option.none }

/-- A raw dataset holding a single local entry, nothing fetched yet. -/
def w5raw2 : RawDataset :=
  { w5raw with name := "w5b", file_list := PyList.ofList [wLocalItem] }

/-- A raw dataset already marked fetched. -/
def c9raw : RawDataset := { w5raw2 with name := "c9", fetched_ := true }

/-- A raw dataset with a single remote entry, for exercising a failed
fetch followed by unpack. -/
def w10raw : RawDataset :=
  { w5raw with name := "w10", file_list := PyList.ofList [wUrlItem] }

/-- The default raw dataset used in concrete fingerprint checks. -/
def c3raw : RawDataset :=
  RawDataset.init "c3" Option.none Option.none Option.none

/-- A processed dataset whose stored hashes were never refreshed
(`update_hashes=False`). -/
def c7ds : Dataset :=
  ⟨.int 1, .pynone, .dcons "dataset_name" (.str "c7") .dnil⟩

/-- The full record `dump` writes for `c7ds`: hashes freshly merged. -/
def c7full : Dataset :=
  ⟨.int 1, .pynone, .dcons "dataset_name" (.str "c7")
     (.dcons "hash_type" (.str "sha1")
       (.dcons "data_hash" (joblib_hash "sha1" (.int 1))
         (.dcons "target_hash" (joblib_hash "sha1" .pynone) .dnil)))⟩

/-- The store after dumping `c7ds` into an empty directory. -/
def c7fs : FS :=
  ⟨[(.str "c7", .dcons "dataset_name" (.str "c7") .dnil)],
   [(.str "c7", c7full)]⟩

/-- A metadata record cached under the name `c6`. -/
def c6cached : PyDict := .dcons "dataset_name" (.str "c6") .dnil

/-- A store already holding a metadata-only record under `c6`. -/
def c6fs : FS := ⟨[(.str "c6", c6cached)], []⟩

/-- An already-unpacked raw dataset with no source files. -/
def d2c : RawDataset :=
  { name := "toy", file_list := PyList.nil,
    load_function := process_dataset_default, dataset_dir := "./d",
    fetched_ := true, fetched_files_ := [], unpacked_ := true,
    unpack_path_ := some "./p" }

/-- The fingerprint key of `d2c` with no extra arguments. -/
def c2M : PyVal := d2c.to_hash Option.none "sha1" PyDict.dnil

/-- The dataset `wEnv`'s transform produces for `d2c`. -/
def c2DS : Dataset :=
  ⟨.int 1, .pynone, .dcons "dataset_name" (.str "out")
     (.dcons "hash_type" (.str "sha1")
       (.dcons "data_hash" (joblib_hash "sha1" (.int 1))
         (.dcons "target_hash" (joblib_hash "sha1" .pynone) .dnil)))⟩

/-- The store after the first `process` call on `d2c`. -/
def c2FS : FS := ⟨[(c2M, c2DS.metadata)], [(c2M, c2DS)]⟩

/-! ## Dictionary lemmas -/

theorem PyDict.get_set_self : (d : PyDict) → (k : String) → (v : PyVal) →
    (d.set k v).get k = some v
  | .dnil, k, v => by simp [PyDict.set, PyDict.get]
  | .dcons k1 v1 rest, k, v => by
    by_cases h : k1 = k <;>
      simp [PyDict.set, PyDict.get, h, PyDict.get_set_self rest k v]

theorem PyDict.get_set_other : (d : PyDict) → (k key : String) → (v : PyVal) →
    k ≠ key → (d.set k v).get key = d.get key
  | .dnil, k, key, v, h => by simp [PyDict.set, PyDict.get, h]
  | .dcons k1 v1 rest, k, key, v, h => by
    by_cases h1 : k1 = k
    · simp [PyDict.set, PyDict.get, h1, h]
    · simp [PyDict.set, PyDict.get, h1,
        PyDict.get_set_other rest k key v h]

theorem PyDict.get_none_of_hasKey_false : (d : PyDict) → (k : String) →
    d.hasKey k = false → d.get k = Option.none
  | .dnil, _, _ => rfl
  | .dcons k1 v1 rest, k, h => by
    simp [PyDict.hasKey] at h
    simp [PyDict.get, h.1, PyDict.get_none_of_hasKey_false rest k h.2]

theorem PyDict.hasKey_false_of_get_none : (d : PyDict) → (k : String) →
    d.get k = Option.none → d.hasKey k = false
  | .dnil, _, _ => rfl
  | .dcons k1 v1 rest, k, h => by
    by_cases h1 : k1 = k
    · simp [PyDict.get, h1] at h
    · simp [PyDict.get, h1] at h
      simp [PyDict.hasKey, h1, PyDict.hasKey_false_of_get_none rest k h]

theorem PyDict.get_merge_notin : (a b : PyDict) → (k : String) →
    b.hasKey k = false → (a.merge b).get k = a.get k
  | a, .dnil, k, _ => rfl
  | a, .dcons k1 v1 rest, k, h => by
    simp [PyDict.hasKey] at h
    rw [PyDict.merge, PyDict.get_merge_notin (a.set k1 v1) rest k h.2,
      PyDict.get_set_other a k1 k v1 h.1]

theorem PyDict.get_merge_in : (a b : PyDict) → (k : String) → (v : PyVal) →
    b.nodupKeys = true → b.get k = some v → (a.merge b).get k = some v
  | a, .dcons k1 v1 rest, k, v, hnd, h => by
    simp [PyDict.nodupKeys] at hnd
    by_cases h1 : k1 = k
    · rw [PyDict.merge, PyDict.get_merge_notin (a.set k1 v1) rest k (h1 ▸ hnd.1),
        ← h1, PyDict.get_set_self]
      simpa [PyDict.get, h1] using h
    · simp [PyDict.get, h1] at h
      rw [PyDict.merge, PyDict.get_merge_in (a.set k1 v1) rest k v hnd.2 h]

theorem PyDict.get_pop_other : (d : PyDict) → (k key : String) →
    k ≠ key → (d.pop k).get key = d.get key
  | .dnil, _, _, _ => rfl
  | .dcons k1 v1 rest, k, key, h => by
    by_cases h1 : k1 = k
    · simp [PyDict.pop, PyDict.get, h1, h,
        PyDict.get_pop_other rest k key h]
    · simp [PyDict.pop, PyDict.get, h1,
        PyDict.get_pop_other rest k key h]

theorem PyDict.pop_set_self : (d : PyDict) → (k : String) → (v : PyVal) →
    (d.set k v).pop k = d.pop k
  | .dnil, k, v => by simp [PyDict.set, PyDict.pop]
  | .dcons k1 v1 rest, k, v => by
    by_cases h : k1 = k <;>
      simp [PyDict.set, PyDict.pop, h, PyDict.pop_set_self rest k v]

theorem PyDict.pop_set_other : (d : PyDict) → (k key : String) → (v : PyVal) →
    k ≠ key → (d.set k v).pop key = (d.pop key).set k v
  | .dnil, k, key, v, h => by
    simp [PyDict.set, PyDict.pop, h]
  | .dcons k1 v1 rest, k, key, v, h => by
    by_cases h1 : k1 = k
    · simp [PyDict.set, PyDict.pop, h1, h]
    · by_cases h2 : k1 = key
      · simp [PyDict.set, PyDict.pop, h1, h2, Ne.symm h,
          PyDict.pop_set_other rest k key v h]
      · simp [PyDict.set, PyDict.pop, h1, h2,
          PyDict.pop_set_other rest k key v h]

theorem PyDict.pop_merge : (a b : PyDict) → (key : String) →
    (a.merge b).pop key = (a.pop key).merge (b.pop key)
  | a, .dnil, key => rfl
  | a, .dcons k v rest, key => by
    by_cases h : k = key
    · subst h
      rw [PyDict.merge, PyDict.pop_merge (a.set k v) rest k]
      simp [PyDict.pop, PyDict.pop_set_self]
    · rw [PyDict.merge, PyDict.pop_merge (a.set k v) rest key]
      simp [PyDict.pop, h, PyDict.merge, PyDict.pop_set_other a k key v h]

/-- The digest `joblib_hash` is injective in the hashed value (the model of the
spec's collision-freedom contract for the external digest). -/
theorem joblib_hash_inj (ht : String) (v w : PyVal)
    (h : joblib_hash ht v = joblib_hash ht w) : v = w := by
  simpa [joblib_hash] using h

/-! ## Fingerprint component lemmas -/

theorem to_hash_default_eq (d : RawDataset) (ht : String) (kw : PyDict) :
    d.to_hash Option.none ht kw = joblib_hash ht (.dict (fingerprintDict d kw)) := rfl

theorem to_dict_explicit (d : RawDataset) :
    d.to_dict = .dcons "url_list" (.list d.file_list)
      (.dcons "load_function_module" (.str d.load_function.module)
        (.dcons "load_function_name" (.str d.load_function.func)
          (.dcons "load_function_args" (.list d.load_function.args)
            (.dcons "load_function_kwargs" (.dict d.load_function.kwargs)
              (.dcons "name" (.str d.name)
                (.dcons "dataset_dir" (.str d.dataset_dir) .dnil)))))) := rfl

theorem to_dict_get_free (d : RawDataset) (k : String)
    (hk : k ∉ reserved_keys) : d.to_dict.get k = Option.none := by
  simp only [reserved_keys, List.mem_cons, List.not_mem_nil, or_false,
    not_or] at hk
  obtain ⟨h1, h2, h3, h4, h5, h6, h7⟩ := hk
  rw [to_dict_explicit]
  simp [PyDict.get, Ne.symm h1, Ne.symm h2, Ne.symm h3, Ne.symm h4,
    Ne.symm h5, Ne.symm h6, Ne.symm h7]

theorem fingerprintDict_get_reserved (d : RawDataset) (kw : PyDict)
    (key : String) (hk : key ∈ reserved_keys) (hkd : key ≠ "dataset_dir")
    (hclean : ∀ k ∈ reserved_keys, kw.hasKey k = false) :
    (fingerprintDict d kw).get key = d.to_dict.get key := by
  unfold fingerprintDict
  rw [PyDict.get_pop_other _ _ _ (Ne.symm hkd),
    PyDict.get_merge_notin _ _ _ (hclean key hk)]

theorem fingerprintDict_get_free (d : RawDataset) (kw : PyDict)
    (key : String) (hk : key ∉ reserved_keys) (hnd : kw.nodupKeys = true) :
    (fingerprintDict d kw).get key = kw.get key := by
  have hkd : "dataset_dir" ≠ key := by
    rintro rfl; exact hk (by simp [reserved_keys])
  unfold fingerprintDict
  rw [PyDict.get_pop_other _ _ _ hkd]
  cases h : kw.get key with
  | some v => rw [PyDict.get_merge_in _ _ _ _ hnd h]
  | none =>
    rw [PyDict.get_merge_notin _ _ _ (PyDict.hasKey_false_of_get_none _ _ h)]
    rw [to_dict_get_free d key hk]

/-! ## Fetch-stage lemmas -/

theorem fetchLoop_all_visited (env : Env) : (l : List PyVal) →
    (∀ it ∈ l, remoteFailure env it = false) →
    (fetchLoop env (PyList.ofList l)).completed = true ∧
    (fetchLoop env (PyList.ofList l)).attempted = l
  | [], _ => by simp [PyList.ofList, fetchLoop]
  | item :: rest, h => by
    have hh := h item (by simp)
    have ih := fetchLoop_all_visited env rest (fun it hit => h it (by simp [hit]))
    by_cases hs : (env.fetch_file item).1
    · simp [PyList.ofList, fetchLoop, hs, ih.1, ih.2]
    · have hurl : pyTruthy (itemGetD item "url" (.bool false)) = false := by
        simpa [remoteFailure, hs] using hh
      simp [PyList.ofList, fetchLoop, hs, hurl, ih.1, ih.2]

theorem fetchLoop_completed_no_failure (env : Env) : (l : List PyVal) →
    (fetchLoop env (PyList.ofList l)).completed = true →
    ∀ it ∈ l, remoteFailure env it = false
  | [], _, it, hit => by simp at hit
  | item :: rest, h, it, hit => by
    by_cases hs : (env.fetch_file item).1
    · rcases List.mem_cons.1 hit with rfl | hmem
      · simp [remoteFailure, hs]
      · exact fetchLoop_completed_no_failure env rest
          (by simpa [PyList.ofList, fetchLoop, hs] using h) it hmem
    · by_cases hurl : pyTruthy (itemGetD item "url" (.bool false))
      · exfalso
        simp [PyList.ofList, fetchLoop, hs, hurl] at h
      · rcases List.mem_cons.1 hit with rfl | hmem
        · simp [remoteFailure, hs, hurl]
        · exact fetchLoop_completed_no_failure env rest
            (by simpa [PyList.ofList, fetchLoop, hs, hurl] using h) it hmem

theorem fetchLoop_abort (env : Env) : (pre : List PyVal) → (bad : PyVal) →
    (post : List PyVal) →
    (∀ it ∈ pre, remoteFailure env it = false) →
    remoteFailure env bad = true →
    (fetchLoop env (PyList.ofList (pre ++ bad :: post))).completed = false ∧
    (fetchLoop env (PyList.ofList (pre ++ bad :: post))).attempted = pre ++ [bad]
  | [], bad, post, _, hbad => by
    have hs : (env.fetch_file bad).1 = false := by
      rcases Bool.eq_false_or_eq_true (env.fetch_file bad).1 with h | h
      · simp [remoteFailure, h] at hbad
      · exact h
    have hurl : pyTruthy (itemGetD bad "url" (.bool false)) = true := by
      simpa [remoteFailure, hs] using hbad
    simp [PyList.ofList, fetchLoop, hs, hurl]
  | p :: pre, bad, post, hpre, hbad => by
    have hp := hpre p (by simp)
    have ih := fetchLoop_abort env pre bad post
      (fun it hit => hpre it (by simp [hit])) hbad
    by_cases hs : (env.fetch_file p).1
    · simp [PyList.ofList, fetchLoop, hs, ih.1, ih.2]
    · have hurl : pyTruthy (itemGetD p "url" (.bool false)) = false := by
        simpa [remoteFailure, hs] using hp
      simp [PyList.ofList, fetchLoop, hs, hurl, ih.1, ih.2]

theorem fetch_preserves (env : Env) (d : RawDataset) (force : Bool) :
    ((RawDataset.fetch env d force).1).unpacked_ = d.unpacked_ ∧
    ((RawDataset.fetch env d force).1).name = d.name ∧
    ((RawDataset.fetch env d force).1).unpack_path_ = d.unpack_path_ := by
  by_cases h : d.fetched_ && !force <;> simp [RawDataset.fetch, h]

/-! ## Claims C5, C8, C9, C10 -/

/-- Claim C5: during `fetch()`, a `fetch_file` failure for an item with a
(truthy) url aborts the stage immediately — the remaining items are never
handed to `fetch_file` and `fetched_` stays false — while a failure for
an item without a url does not stop the loop; `fetched_` becomes true
when the loop visits every item without a remote-origin failure (the
model's total return type reflects that `fetch` never raises). -/
theorem C5_fetch_failure_semantics (env : Env) (d : RawDataset)
    (h0 : d.fetched_ = false) :
    (∀ (pre : List PyVal) (bad : PyVal) (post : List PyVal),
       d.file_list = PyList.ofList (pre ++ bad :: post) →
       (∀ it ∈ pre, remoteFailure env it = false) →
       remoteFailure env bad = true →
       ((RawDataset.fetch env d false).1.fetched_ = false ∧
        (fetchLoop env d.file_list).attempted = pre ++ [bad])) ∧
    (∀ l : List PyVal, d.file_list = PyList.ofList l →
       (∀ it ∈ l, remoteFailure env it = false) →
       ((RawDataset.fetch env d false).1.fetched_ = true ∧
        (fetchLoop env d.file_list).attempted = l)) := by
  constructor
  · intro pre bad post hfl hpre hbad
    have h := fetchLoop_abort env pre bad post hpre hbad
    refine ⟨?_, by rw [hfl]; exact h.2⟩
    simp [RawDataset.fetch, h0, hfl, h.1]
  · intro l hfl hall
    have h := fetchLoop_all_visited env l hall
    refine ⟨?_, by rw [hfl]; exact h.2⟩
    simp [RawDataset.fetch, h0, hfl, h.1]

theorem C5_fetch_failure_semantics_witness :
    ((RawDataset.fetch wEnv w5raw false).1.fetched_ = false ∧
     (fetchLoop wEnv w5raw.file_list).attempted = [wLocalItem, wUrlItem]) ∧
    ((RawDataset.fetch wEnv w5raw2 false).1.fetched_ = true ∧
     (fetchLoop wEnv w5raw2.file_list).attempted = [wLocalItem]) :=
  ⟨(C5_fetch_failure_semantics wEnv w5raw rfl).1 [wLocalItem] wUrlItem
      [wLocalItem] rfl (by decide) (by decide),
   (C5_fetch_failure_semantics wEnv w5raw2 rfl).2 [wLocalItem] rfl (by decide)⟩

/-- Claim C8 counterexample: the single file-list item fails to fetch
(`fetch_file` returns a false status), yet `fetched_` is set true,
because the `for`/`else` loop only aborts on items with a url — so "any
failure of any item in the stage leaves the flag false" is false on the
code. -/
theorem C8_counterexample :
    (wEnv.fetch_file wLocalItem).1 = false ∧
    w5raw2.file_list = PyList.ofList [wLocalItem] ∧
    (RawDataset.fetch wEnv w5raw2 false).1.fetched_ = true := by decide

/-- Claim C8 (amended): `fetched_` is set true iff every item is visited
without a remote-origin failure — a failure of an item without a url does
not keep the flag false — and `unpacked_` is set true only when the
unpacker succeeds on every fetched file: an unpacker failure propagates
before the flag assignment. -/
theorem C8_stage_flags (env : Env) (d : RawDataset) (l : List PyVal)
    (h0 : d.fetched_ = false) (hl : d.file_list = PyList.ofList l) :
    ((RawDataset.fetch env d false).1.fetched_ = true ↔
      ∀ it ∈ l, remoteFailure env it = false) ∧
    (∀ (d2 : RawDataset) (up : Option String) (e : String),
      d2.fetched_ = true → d2.unpacked_ = false →
      unpackAll env (unpackDest d2 up) d2.fetched_files_ = Except.error e →
      RawDataset.unpack env d2 up false = Except.error e) := by
  constructor
  · constructor
    · intro h
      refine fetchLoop_completed_no_failure env l ?_
      rw [← hl]
      simpa [RawDataset.fetch, h0] using h
    · intro h
      have := fetchLoop_all_visited env l h
      simp [RawDataset.fetch, h0, hl, this.1]
  · intro d2 up e hf2 hu2 herr
    simp [RawDataset.unpack, hf2, hu2, herr]

theorem C8_stage_flags_witness :
    (((RawDataset.fetch wEnv w5raw2 false).1.fetched_ = true ↔
       ∀ it ∈ [wLocalItem], remoteFailure wEnv it = false)) ∧
    ((RawDataset.fetch wEnv w5raw2 false).1.fetched_ = true) :=
  ⟨(C8_stage_flags wEnv w5raw2 [wLocalItem] rfl rfl).1,
   ((C8_stage_flags wEnv w5raw2 [wLocalItem] rfl rfl).1).2 (by decide)⟩

/-- Claim C9 counterexample: on an already-fetched dataset,
`fetch(force=False)` executes the bare `return` statement and the call
yields `None` — not the current fetched status (`True`) that the claim
asserts. -/
theorem C9_counterexample :
    c9raw.fetched_ = true ∧
    (RawDataset.fetch wEnv c9raw false).2 ≠ some true := by decide

/-- Claim C9 (amended): on an already-fetched dataset,
`fetch(force=False)` leaves all state unchanged and returns `None` (the
bare `return`), so a caller must read `fetched_` directly for the
status. -/
theorem C9_fetch_noop (env : Env) (d : RawDataset) (h : d.fetched_ = true) :
    RawDataset.fetch env d false = (d, Option.none) := by
  simp [RawDataset.fetch, h]

theorem C9_fetch_noop_witness :
    RawDataset.fetch wEnv c9raw false = (c9raw, Option.none) :=
  C9_fetch_noop wEnv c9raw rfl

/-- Claim C10: `unpack()` on a dataset that is neither fetched nor
unpacked first invokes `fetch()`; even when that fetch fails (the flag
stays false), the unpack loop still runs over whatever `fetched_files_`
holds, and when the unpacker does not raise the call sets `unpacked_`
true and records `unpack_path_` — so `unpacked_ = true` does not imply
`fetched_ = true`. -/
theorem C10_unpack_after_failed_fetch (env : Env) (d0 : RawDataset)
    (up : Option String) (hf : d0.fetched_ = false) (hu : d0.unpacked_ = false)
    (hfail : ((RawDataset.fetch env d0 false).1).fetched_ = false)
    (hok : unpackAll env (unpackDest d0 up)
      ((RawDataset.fetch env d0 false).1).fetched_files_ = Except.ok ()) :
    ∃ d1, RawDataset.unpack env d0 up false =
        Except.ok (d1, some (unpackDest d0 up)) ∧
      d1.unpacked_ = true ∧ d1.fetched_ = false ∧
      d1.unpack_path_ = some (unpackDest d0 up) := by
  have hup : ((RawDataset.fetch env d0 false).1).unpacked_ = false := by
    rw [(fetch_preserves env d0 false).1, hu]
  have hname := (fetch_preserves env d0 false).2.1
  have hdest : unpackDest ((RawDataset.fetch env d0 false).1) up =
      unpackDest d0 up := by
    cases up <;> simp [unpackDest, hname]
  have hgoal : RawDataset.unpack env d0 up false =
      Except.ok ({ (RawDataset.fetch env d0 false).1 with
                     unpacked_ := true,
                     unpack_path_ := some (unpackDest d0 up) },
        some (unpackDest d0 up)) := by
    simp [RawDataset.unpack, hf, hup, hdest, hok]
  exact ⟨_, hgoal, rfl, hfail, rfl⟩

theorem C10_unpack_after_failed_fetch_witness :
    ∃ d1, RawDataset.unpack wEnv w10raw (some "./dest") false =
        Except.ok (d1, some (unpackDest w10raw (some "./dest"))) ∧
      d1.unpacked_ = true ∧ d1.fetched_ = false ∧
      d1.unpack_path_ = some (unpackDest w10raw (some "./dest")) :=
  C10_unpack_after_failed_fetch wEnv w10raw (some "./dest") rfl rfl rfl rfl

/-! ## Claims C1, C3, C4 -/

/-- Claim C1: `to_hash` is a pure function of the definition and the
extra arguments (repeated calls agree), and a `RawDataset` rebuilt via
`from_dict(to_dict(D))` yields the same key as `D` for the same
arguments. -/
theorem C1_fingerprint_determinism_roundtrip (d : RawDataset)
    (ig : Option (List String)) (ht : String) (kw : PyDict) :
    d.to_hash ig ht kw = d.to_hash ig ht kw ∧
    (RawDataset.from_dict d.to_dict).map (fun d2 => d2.to_hash ig ht kw) =
      Except.ok (d.to_hash ig ht kw) := ⟨rfl, rfl⟩

theorem PyList.ofList_inj : (l1 l2 : List PyVal) →
    PyList.ofList l1 = PyList.ofList l2 → l1 = l2
  | [], [], _ => rfl
  | [], _ :: _, h => by simp [PyList.ofList] at h
  | _ :: _, [], h => by simp [PyList.ofList] at h
  | a :: l1, b :: l2, h => by
    simp only [PyList.ofList, PyList.cons.injEq] at h
    rw [h.1, PyList.ofList_inj l1 l2 h.2]

theorem to_dict_get_url_list (d : RawDataset) :
    d.to_dict.get "url_list" = some (.list d.file_list) := rfl

theorem to_dict_get_lf_module (d : RawDataset) :
    d.to_dict.get "load_function_module" =
      some (.str d.load_function.module) := rfl

theorem to_dict_get_lf_name (d : RawDataset) :
    d.to_dict.get "load_function_name" = some (.str d.load_function.func) := rfl

theorem to_dict_get_lf_args (d : RawDataset) :
    d.to_dict.get "load_function_args" =
      some (.list d.load_function.args) := rfl

theorem to_dict_get_lf_kwargs (d : RawDataset) :
    d.to_dict.get "load_function_kwargs" =
      some (.dict d.load_function.kwargs) := rfl

theorem to_dict_get_name (d : RawDataset) :
    d.to_dict.get "name" = some (.str d.name) := rfl

/-- Two `to_hash` keys (default ignore list) differ whenever the
canonical mappings differ at some key. -/
theorem to_hash_ne_of_get_ne (d1 d2 : RawDataset) (ht : String)
    (kw1 kw2 : PyDict) (key : String)
    (h : (fingerprintDict d1 kw1).get key ≠ (fingerprintDict d2 kw2).get key) :
    d1.to_hash Option.none ht kw1 ≠ d2.to_hash Option.none ht kw2 := by
  rw [to_hash_default_eq, to_hash_default_eq]
  intro he
  have hv : PyVal.dict (fingerprintDict d1 kw1) =
      PyVal.dict (fingerprintDict d2 kw2) := joblib_hash_inj ht _ _ he
  have hd : fingerprintDict d1 kw1 = fingerprintDict d2 kw2 := by
    simpa [PyVal.dict.injEq] using hv
  exact h (by rw [hd])

/-- Claim C3 counterexample: an extra transform argument under the key
`dataset_dir` is silently discarded by `to_hash`'s default ignore list,
so changing it does not change the key, refuting the claim that changing
any extra transform argument changes the key. -/
theorem C3_counterexample :
    RawDataset.to_hash c3raw Option.none "sha1"
        (.dcons "dataset_dir" (.str "a") .dnil) =
      RawDataset.to_hash c3raw Option.none "sha1"
        (.dcons "dataset_dir" (.str "b") .dnil) ∧
    PyDict.dcons "dataset_dir" (.str "a") .dnil ≠
      PyDict.dcons "dataset_dir" (.str "b") .dnil := by decide

/-- Claim C3 (amended): provided the extra transform arguments form a
proper mapping avoiding the reserved keys of the serialized definition
(`url_list`, `load_function_*`, `name`, `dataset_dir`), changing a
file's `hash_value`, the transform's serialized identity, its bound
arguments, the dataset name, or the extra-argument mapping changes the
key. -/
theorem C3_fingerprint_sensitivity (d : RawDataset) (ht : String)
    (kw : PyDict) (hclean : ∀ k ∈ reserved_keys, kw.hasKey k = false)
    (hnd : kw.nodupKeys = true) :
    (∀ (pre post : List PyVal) (item : PyDict) (v : PyVal),
       d.file_list = PyList.ofList (pre ++ PyVal.dict item :: post) →
       item.get "hash_value" ≠ some v →
       RawDataset.to_hash
         { d with file_list := PyList.ofList
                     (pre ++ PyVal.dict (item.set "hash_value" v) :: post) }
         Option.none ht kw ≠ d.to_hash Option.none ht kw) ∧
    (∀ t2 : TransformRef,
       (t2.module ≠ d.load_function.module ∨ t2.func ≠ d.load_function.func ∨
        t2.args ≠ d.load_function.args ∨
        (∃ k, t2.kwargs.get k ≠ d.load_function.kwargs.get k)) →
       RawDataset.to_hash { d with load_function := t2 } Option.none ht kw ≠
         d.to_hash Option.none ht kw) ∧
    (∀ n2 : String, n2 ≠ d.name →
       RawDataset.to_hash { d with name := n2 } Option.none ht kw ≠
         d.to_hash Option.none ht kw) ∧
    (∀ kw2 : PyDict, (∀ k ∈ reserved_keys, kw2.hasKey k = false) →
       kw2.nodupKeys = true → (∃ k, kw2.get k ≠ kw.get k) →
       d.to_hash Option.none ht kw2 ≠ d.to_hash Option.none ht kw) := by
  refine ⟨?_, ?_, ?_, ?_⟩
  · intro pre post item v hfl hv
    refine to_hash_ne_of_get_ne _ _ ht kw kw "url_list" ?_
    rw [fingerprintDict_get_reserved _ _ _ (by decide) (by decide) hclean,
        fingerprintDict_get_reserved _ _ _ (by decide) (by decide) hclean,
        to_dict_get_url_list, to_dict_get_url_list]
    simp only [hfl, ne_eq, Option.some.injEq, PyVal.list.injEq]
    intro he
    have hl := PyList.ofList_inj _ _ he
    have hcons := List.append_cancel_left hl
    simp only [List.cons.injEq, PyVal.dict.injEq] at hcons
    exact hv (hcons.1 ▸ PyDict.get_set_self item "hash_value" v)
  · intro t2 hdiff
    rcases hdiff with hm | hfn | ha | ⟨k, hk⟩
    · refine to_hash_ne_of_get_ne _ _ ht kw kw "load_function_module" ?_
      rw [fingerprintDict_get_reserved _ _ _ (by decide) (by decide) hclean,
          fingerprintDict_get_reserved _ _ _ (by decide) (by decide) hclean,
          to_dict_get_lf_module, to_dict_get_lf_module]
      simp [hm]
    · refine to_hash_ne_of_get_ne _ _ ht kw kw "load_function_name" ?_
      rw [fingerprintDict_get_reserved _ _ _ (by decide) (by decide) hclean,
          fingerprintDict_get_reserved _ _ _ (by decide) (by decide) hclean,
          to_dict_get_lf_name, to_dict_get_lf_name]
      simp [hfn]
    · refine to_hash_ne_of_get_ne _ _ ht kw kw "load_function_args" ?_
      rw [fingerprintDict_get_reserved _ _ _ (by decide) (by decide) hclean,
          fingerprintDict_get_reserved _ _ _ (by decide) (by decide) hclean,
          to_dict_get_lf_args, to_dict_get_lf_args]
      simp [ha]
    · refine to_hash_ne_of_get_ne _ _ ht kw kw "load_function_kwargs" ?_
      rw [fingerprintDict_get_reserved _ _ _ (by decide) (by decide) hclean,
          fingerprintDict_get_reserved _ _ _ (by decide) (by decide) hclean,
          to_dict_get_lf_kwargs, to_dict_get_lf_kwargs]
      simp only [ne_eq, Option.some.injEq, PyVal.dict.injEq]
      intro he
      exact hk (by rw [he])
  · intro n2 hn
    refine to_hash_ne_of_get_ne _ _ ht kw kw "name" ?_
    rw [fingerprintDict_get_reserved _ _ _ (by decide) (by decide) hclean,
        fingerprintDict_get_reserved _ _ _ (by decide) (by decide) hclean,
        to_dict_get_name, to_dict_get_name]
    simp [hn]
  · intro kw2 hclean2 hnd2 hex
    obtain ⟨k, hk⟩ := hex
    have hkres : k ∉ reserved_keys := by
      intro hmem
      exact hk (by rw [PyDict.get_none_of_hasKey_false _ _ (hclean2 k hmem),
        PyDict.get_none_of_hasKey_false _ _ (hclean k hmem)])
    refine to_hash_ne_of_get_ne _ _ ht kw2 kw k ?_
    rw [fingerprintDict_get_free _ _ _ hkres hnd2,
        fingerprintDict_get_free _ _ _ hkres hnd]
    exact hk

theorem C3_fingerprint_sensitivity_witness :
    RawDataset.to_hash { c3raw with name := "c3b" } Option.none "sha1"
        PyDict.dnil ≠ c3raw.to_hash Option.none "sha1" PyDict.dnil :=
  (C3_fingerprint_sensitivity c3raw "sha1" PyDict.dnil (by decide)
    rfl).2.2.1 "c3b" (by decide)

/-- Claim C4: the working directory `dataset_dir` and the transient
flags (`fetched_`, `fetched_files_`, `unpacked_`, `unpack_path_`) are
excluded from the fingerprint: two raw datasets differing only in those
fields yield the same key for equal extra arguments. -/
theorem C4_fingerprint_ignores_directory (name : String) (fl : PyList)
    (lf : TransformRef) (dd1 dd2 : String) (f1 f2 : Bool)
    (ff1 ff2 : List String) (u1 u2 : Bool) (p1 p2 : Option String)
    (ht : String) (kw : PyDict) :
    RawDataset.to_hash ⟨name, fl, lf, dd1, f1, ff1, u1, p1⟩ Option.none ht kw =
      RawDataset.to_hash ⟨name, fl, lf, dd2, f2, ff2, u2, p2⟩ Option.none ht
        kw := by
  rw [to_hash_default_eq, to_hash_default_eq]
  unfold fingerprintDict
  rw [PyDict.pop_merge, PyDict.pop_merge]
  rfl

/-! ## Cache-store lemmas and claims C6, C7, C2 -/

theorem alistGet_set_self {α : Type} : (l : List (PyVal × α)) → (k : PyVal) →
    (v : α) → alistGet (alistSet l k v) k = some v
  | [], k, v => by simp [alistSet, alistGet]
  | p :: rest, k, v => by
    by_cases h : p.1 = k <;>
      simp [alistSet, alistGet, h, alistGet_set_self rest k v]

theorem fsGetDataset_setDataset (fs : FS) (k : PyVal) (v : Dataset) :
    fsGetDataset (fsSetDataset fs k v) k = some v := alistGet_set_self _ _ _

theorem fsGetMeta_setMeta (fs : FS) (k : PyVal) (m : PyDict) :
    fsGetMeta (fsSetMeta fs k m) k = some m := alistGet_set_self _ _ _

/-- Calling `dump` with `force=True` never fails: it refreshes the hashes into
the full record and overwrites both records. -/
theorem dump_force_ok (ds : Dataset) (fb : PyVal) (fs : FS) (ht : String) :
    Dataset.dump ds (some fb) fs ht true true =
      Except.ok
        ({ ds with metadata := ds.metadata.merge (ds.get_data_hashes ht) },
          fsSetDataset (fsSetMeta fs fb ds.metadata) fb
            { ds with metadata := ds.metadata.merge (ds.get_data_hashes ht) })
    := by
  unfold Dataset.dump
  cases hm : fsGetMeta fs fb <;> simp [hm]

/-- Claim C6: when a metadata-only record already exists under the
target file-base name and `force` is false, `dump()` fails — with the
"already exists" error when the new metadata is a subset of the cached
metadata and the "has changed" error otherwise — and produces no write
(the error carries no store); with `force` true it succeeds and
overwrites both the metadata-only record and the full record. -/
theorem C6_dump_conflict_policy (ds : Dataset) (fb : PyVal) (fs : FS)
    (ht : String) (cached : PyDict) (h : fsGetMeta fs fb = some cached) :
    (Dataset.dump ds (some fb) fs ht false true =
       Except.error (if ds.metadata.itemsSubset cached then msg_exists
         else msg_changed)) ∧
    msg_exists ≠ msg_changed ∧
    (∃ ds2 fs2, Dataset.dump ds (some fb) fs ht true true =
       Except.ok (ds2, fs2) ∧
       fsGetMeta fs2 fb = some ds.metadata ∧
       fsGetDataset fs2 fb = some ds2) := by
  refine ⟨?_, by decide, ?_⟩
  · simp only [Dataset.dump, Option.getD_some, h]
    split <;> rfl
  · exact ⟨_, _, dump_force_ok ds fb fs ht,
      fsGetMeta_setMeta fs fb ds.metadata, fsGetDataset_setDataset _ fb _⟩

/-- Claim C7 is violated by the code: `dump` binds its local `metadata`
variable before refreshing the content hashes into `self['metadata']`,
so the metadata-only record it writes is the stale pre-refresh mapping
while the full record carries the refreshed hashes — here the
metadata-only record lacks `data_hash` entirely while the full record
stores the hash of the payload. -/
theorem C7_metadata_record_stale :
    Dataset.create (some (.str "c7")) (.int 1) .pynone Option.none false =
      Except.ok c7ds ∧
    Dataset.dump c7ds Option.none FS.empty "sha1" true true =
      Except.ok (c7full, c7fs) ∧
    fsGetMeta c7fs (.str "c7") = some c7ds.metadata ∧
    fsGetDataset c7fs (.str "c7") = some c7full ∧
    c7ds.metadata ≠ c7full.metadata ∧
    c7full.metadata.get "data_hash" = some (joblib_hash "sha1" (.int 1)) ∧
    c7ds.metadata.get "data_hash" = Option.none :=
  ⟨rfl, rfl, rfl, rfl, by decide, rfl, rfl⟩

theorem C6_dump_conflict_policy_witness :
    (Dataset.dump c7ds (some (.str "c6")) c6fs "sha1" false true =
       Except.error (if c7ds.metadata.itemsSubset c6cached then msg_exists
         else msg_changed)) ∧
    msg_exists ≠ msg_changed ∧
    (∃ ds2 fs2, Dataset.dump c7ds (some (.str "c6")) c6fs "sha1" true true =
       Except.ok (ds2, fs2) ∧
       fsGetMeta fs2 (.str "c6") = some c7ds.metadata ∧
       fsGetDataset fs2 (.str "c6") = some ds2) :=
  C6_dump_conflict_policy c7ds (.str "c6") c6fs "sha1" c6cached rfl

/-- Claim C2: on an unpacked `RawDataset`, `process(force=False)` run
twice with identical arguments returns the same `Dataset` (hence
identical metadata) on both calls; the second call is served from the
cache under the fingerprint key, leaves the store unchanged and does not
invoke the transform, so the transform runs at most once across the two
calls. -/
theorem C2_process_idempotent (env : Env) (d : RawDataset) (fs : FS)
    (use_doc : Bool) (kwargs : PyDict) (d1 : RawDataset) (out1 : ProcOut)
    (fs1 : FS) (n1 : Nat) (hu : d.unpacked_ = true)
    (h1 : RawDataset.process env d fs false false use_doc kwargs =
      Except.ok (d1, out1, fs1, n1)) :
    n1 ≤ 1 ∧ d1 = d ∧
    RawDataset.process env d fs1 false false use_doc kwargs =
      Except.ok (d, out1, fs1, 0) := by
  unfold RawDataset.process at h1 ⊢
  rw [hu] at h1 ⊢
  cases hfd : fsGetDataset fs (d.to_hash Option.none "sha1" kwargs) with
  | some dset =>
    simp [Dataset.load, hfd] at h1
    obtain ⟨rfl, rfl, rfl, rfl⟩ := h1
    refine ⟨Nat.zero_le 1, rfl, ?_⟩
    simp [Dataset.load, hfd]
  | none =>
    simp only [Dataset.load] at h1
    simp [hfd] at h1
    split at h1
    · simp at h1
    · split at h1
      · simp at h1
      · rw [dump_force_ok] at h1
        simp at h1
        obtain ⟨rfl, rfl, rfl, rfl⟩ := h1
        refine ⟨Nat.le_refl 1, rfl, ?_⟩
        simp [Dataset.load, fsGetDataset_setDataset]

theorem C2_process_idempotent_witness :
    1 ≤ 1 ∧ d2c = d2c ∧
    RawDataset.process wEnv d2c c2FS false false false PyDict.dnil =
      Except.ok (d2c, ProcOut.ds c2DS, c2FS, 0) :=
  C2_process_idempotent wEnv d2c FS.empty false PyDict.dnil d2c
    (ProcOut.ds c2DS) c2FS 1 rfl rfl

end Folklore
